import Mathlib

/-!
Shallow embedding of the reconciler's control core, translated from the Go
sources:

* `ClusterStatusTransition.StartReconciliation` / `FinishReconciliation`
  (package `service`, cluster-status transition file),
* `runner.Run` / `reconcile` / `install` / `renderManifest` / `trackProgress`
  (package `service`, component-runner file),
* the REST handlers `get` and `delete` (package `cmd`, `cmd/service/start/cmd.go`).

External collaborators (inventory, reconciliation repository, chart provider,
Kubernetes client, status updater callbacks) are modelled as oracle functions
passed in explicitly; the control flow of the embedded functions mirrors the
Go sources statement by statement.  Logging calls are dropped: they do not
influence control flow in any of the embedded functions.

The file is organised as: all definitions first, then all theorems.
-/

namespace Reconciler

/-! ## Definitions: manifest rendering (`runner.renderManifest`) -/

/-- Manifest type of the hydroform `components` package; the runner compares
against `components.CRD`. -/
inductive ManifestType where
  | crd
  | helmChart
deriving DecidableEq, Repr

/-- String rendering of a manifest type, as interpolated by `%s` in the
manifest header comment. -/
def ManifestType.toStr : ManifestType → String
  | .crd => "CRD"
  | .helmChart => "HelmChart"

/-- One manifest returned by the chart provider
(`Manifests(...) → list of {type, name, manifest}`). -/
structure Manifest where
  mType : ManifestType
  name : String
  manifest : String
deriving DecidableEq, Repr

/-- The text `renderManifest` appends to the buffer for a single manifest:
`---\n`, then the comment header `# Manifest of <type> '<component>'\n`,
then the manifest body, then a newline. -/
def manifestFragment (component : String) (m : Manifest) : String :=
  "---\n" ++ "# Manifest of " ++ m.mType.toStr ++ " \x27" ++ component ++ "\x27\n"
    ++ m.manifest ++ "\n"

/-- The `for _, manifest := range manifests` loop of `runner.renderManifest`,
threading the `bytes.Buffer` as an accumulator.  When `installCRD` is false
and the manifest is a CRD the Go code only logs an illegal-state message;
the buffer is appended to unconditionally. -/
def renderLoop (component : String) : List Manifest → String → String
  | [], buffer => buffer
  | m :: rest, buffer => renderLoop component rest (buffer ++ manifestFragment component m)

/-- Embedding of `runner.renderManifest`: the chart-provider call is modelled by its result
`providerRes`; on provider error the error is wrapped
(`errors.Wrap(err, msg)`, modelled by `wrapErr`), otherwise the manifests are
concatenated in provider order. -/
def renderManifest (wrapErr : String → E → E) (component : String)
    (providerRes : Except E (List Manifest)) : Except E String :=
  match providerRes with
  | .error e =>
      .error (wrapErr ("Failed to render manifest for component \x27" ++ component ++ "\x27") e)
  | .ok manifests => .ok (renderLoop component manifests "")

/-! ## Definitions: progress tracking (`runner.trackProgress`) -/

/-- A deployed resource as returned by `kubeClient.DeployedResources`:
`{kind, namespace, name}` (`namespace` is a Lean keyword, abbreviated `ns`). -/
structure Resource where
  kind : String
  ns : String
  name : String
deriving DecidableEq, Repr

/-- The `for _, resource := range resources` loop of `runner.trackProgress`:
`progress.NewWatchableResource(resource.Kind)` (modelled by the oracle
`watchable`) converts a kind into a watchable resource; on conversion error
the resource is skipped (`continue`), otherwise it is added to the progress
tracker together with its namespace and name. -/
def collectWatchable (watchable : String → Except E W) :
    List Resource → List (W × String × String)
  | [] => []
  | r :: rest =>
      match watchable r.kind with
      | .error _ => collectWatchable watchable rest
      | .ok w => (w, r.ns, r.name) :: collectWatchable watchable rest

/-- Embedding of `runner.trackProgress`: clientset creation, progress-tracker creation and
`DeployedResources` are modelled by their results; the added resources are
collected by `collectWatchable` and handed to `pt.Watch()` (oracle `watch`). -/
def trackProgress (clientsetRes : Option E) (newTrackerRes : Option E)
    (deployedRes : Except E (List Resource)) (watchable : String → Except E W)
    (watch : List (W × String × String) → Option E) : Option E :=
  match clientsetRes with
  | some e => some e
  | none =>
      match newTrackerRes with
      | some e => some e
      | none =>
          match deployedRes with
          | .error e => some e
          | .ok resources => watch (collectWatchable watchable resources)

/-- A concrete kind-conversion oracle used in witnesses: only the kind
`Deployment` is watchable. -/
def watchableDemo (kind : String) : Except String String :=
  if kind = "Deployment" then .ok kind else .error "unwatchable resource kind"

/-! ## Definitions: one reconciliation attempt (`runner.reconcile`) -/

/-- Observable steps of one `runner.reconcile` attempt: the pre-install hook,
the default install path (`r.install`), a registered install action, and the
post-install hook. -/
inductive StepEvent where
  | preInstall
  | defaultInstall
  | installAct
  | postInstall
deriving DecidableEq, Repr

/-- Oracle results for the collaborator calls of one `runner.reconcile`
attempt.  For the three hook fields, `none` means no action is registered
(`r.xxxAction == nil`), `some r` means the action is registered and `Run`
returns `r` (`none` = success, `some e` = error `e`). -/
structure RunnerSteps (E : Type) where
  newKubeClientRes : Option E
  clientsetRes : Option E
  preInstallAction : Option (Option E)
  installAction : Option (Option E)
  installRes : Option E
  postInstallAction : Option (Option E)

/-- Tail of `runner.reconcile` after the install path: the optional
post-install hook. -/
def reconcilePost (m : RunnerSteps E) (tr : List StepEvent) : List StepEvent × Option E :=
  match m.postInstallAction with
  | some r => (tr ++ [.postInstall], r)
  | none => (tr, none)

/-- Install part of `runner.reconcile`: when no install action is registered
the default install path `r.install` runs, otherwise the registered action. -/
def reconcileInstall (m : RunnerSteps E) (tr : List StepEvent) : List StepEvent × Option E :=
  match m.installAction with
  | none =>
      match m.installRes with
      | some e => (tr ++ [.defaultInstall], some e)
      | none => reconcilePost m (tr ++ [.defaultInstall])
  | some r =>
      match r with
      | some e => (tr ++ [.installAct], some e)
      | none => reconcilePost m (tr ++ [.installAct])

/-- Embedding of `runner.reconcile`: Kubernetes client and clientset creation, then the
optional pre-install hook (returning its error immediately on failure), then
the install path, then the optional post-install hook.  Returns the trace of
executed steps and the error result. -/
def reconcile (m : RunnerSteps E) : List StepEvent × Option E :=
  match m.newKubeClientRes with
  | some e => ([], some e)
  | none =>
      match m.clientsetRes with
      | some e => ([], some e)
      | none =>
          match m.preInstallAction with
          | some (some e) => ([.preInstall], some e)
          | some none => reconcileInstall m [.preInstall]
          | none => reconcileInstall m []

/-! ## Definitions: the retrying runner (`runner.Run`) -/

/-- Observable status-updater invocations made by `runner.Run`:
`Running()`/`Failed()` inside attempt `i`, and the terminal
`Success()`/`Error()` calls after the retry loop. -/
inductive UpdaterEvent where
  | running (i : Nat)
  | failed (i : Nat)
  | success
  | error
deriving DecidableEq, Repr

/-- The error `runner.Run` returns: either an error returned by a terminal
status-updater call (`Success()`/`Error()`), or the aggregate of all attempt
errors produced by `retry.Do` with `retry.LastErrorOnly(false)`. -/
inductive RunError (E : Type) where
  | callback (e : E)
  | attempts (es : List E)
deriving DecidableEq, Repr

/-- Oracle results for `runner.Run`: per attempt `i`, the results of
`statusUpdater.Running()`, `r.reconcile` and `statusUpdater.Failed()`
(`none` = success), plus the results of the terminal `Success()` and
`Error()` calls. -/
structure RunOracles (E : Type) where
  runningRes : Nat → Option E
  reconcileRes : Nat → Option E
  failedRes : Nat → Option E
  successRes : Option E
  errorRes : Option E

/-- The error result of the `retryable` closure in `runner.Run` for attempt
`i`: a failing `Running()` call aborts the attempt before `reconcile`; when
`reconcile` fails, `Failed()` is invoked, and its error (if any) replaces the
reconcile error as the attempt's result. -/
def attemptResult (o : RunOracles E) (i : Nat) : Option E :=
  match o.runningRes i with
  | some e => some e
  | none =>
      match o.reconcileRes i with
      | none => none
      | some e =>
          match o.failedRes i with
          | some e₂ => some e₂
          | none => some e

/-- The status-updater calls made during attempt `i`: `Running()` always, and
`Failed()` exactly when `Running()` succeeded and `reconcile` failed. -/
def attemptTrace (o : RunOracles E) (i : Nat) : List UpdaterEvent :=
  match o.runningRes i with
  | some _ => [.running i]
  | none =>
      match o.reconcileRes i with
      | none => [.running i]
      | some _ => [.running i, .failed i]

/-- Embedding of `retry.Do` over the `retryable` closure: up to `n` attempts starting at
attempt index `i`, stopping at the first success; on exhaustion all attempt
errors are collected (`retry.LastErrorOnly(false)`).  Returns the
status-updater trace and `none` on success / `some errors` on exhaustion. -/
def retryRun (o : RunOracles E) (i : Nat) : Nat → List UpdaterEvent × Option (List E)
  | 0 => ([], some [])
  | n + 1 =>
      match attemptResult o i with
      | none => (attemptTrace o i, none)
      | some e =>
          let rest := retryRun o (i + 1) n
          (attemptTrace o i ++ rest.1,
            match rest.2 with
            | none => none
            | some es => some (e :: es))

/-- The number of attempts `retry.Do` actually executes: it stops after the
first successful attempt and never exceeds the attempt budget. -/
def execCount (o : RunOracles E) (i : Nat) : Nat → Nat
  | 0 => 0
  | n + 1 =>
      match attemptResult o i with
      | none => 1
      | some _ => 1 + execCount o (i + 1) n

/-- Embedding of `runner.Run` after the status updater is created: the retry loop over the
`retryable` closure with `maxRetries` attempts, then `Success()` on loop
success (returning its error if it fails) or `Error()` on exhaustion
(returning its error if it fails, else the aggregated loop error). -/
def runnerRun (o : RunOracles E) (maxRetries : Nat) : List UpdaterEvent × Option (RunError E) :=
  let loop := retryRun o 0 maxRetries
  match loop.2 with
  | none =>
      (loop.1 ++ [.success],
        match o.successRes with
        | some e => some (.callback e)
        | none => none)
  | some es =>
      (loop.1 ++ [.error],
        match o.errorRes with
        | some e => some (.callback e)
        | none => some (.attempts es))

/-- Concrete run oracles whose `Running()` heartbeat call fails on every
attempt while `reconcile` itself would succeed. -/
def runDemoFailingHeartbeat : RunOracles Nat where
  runningRes := fun _ => some 7
  reconcileRes := fun _ => none
  failedRes := fun _ => none
  successRes := none
  errorRes := none

/-- Concrete run oracles where every attempt succeeds but the terminal
`Success()` callback fails with error `5`. -/
def runDemoSuccessCallbackFails : RunOracles Nat where
  runningRes := fun _ => none
  reconcileRes := fun _ => none
  failedRes := fun _ => none
  successRes := some 5
  errorRes := none

/-- Concrete run oracles where every attempt fails with reconcile error `3`
and the terminal `Error()` callback fails with error `9`. -/
def runDemoErrorCallbackFails : RunOracles Nat where
  runningRes := fun _ => none
  reconcileRes := fun _ => some 3
  failedRes := fun _ => none
  successRes := none
  errorRes := some 9

/-! ## Definitions: cluster status transition (`ClusterStatusTransition`) -/

/-- Cluster status values (`model.Status` is a string type in the source). -/
abbrev Status := String

/-- Modelled from the spec: the constant `model.ClusterStatusReconciling`
(the `Reconciling` cluster status of §4.1); its definition is not among the
provided sources and its concrete representation is irrelevant here. -/
def ClusterStatusReconciling : Status := "reconciling"

/-- The fields of `cluster.State` the transition code uses: the cluster name
(logging only) and the current status record, whose value is handed to
`Repository.FinishReconciliation`. -/
structure ClusterState where
  cluster : String
  status : Status
deriving DecidableEq, Repr

/-- The fields of the reconciliation entity read by
`ClusterStatusTransition.FinishReconciliation`: `Cluster`, `ClusterConfig`
and the `Finished` flag. -/
structure ReconEntity where
  cluster : String
  clusterConfig : Int
  finished : Bool
deriving DecidableEq, Repr

/-- Modelled from the spec: `db.Transaction(conn, dbOp, logger)` — the
persistence layer provides ACID transactions scoped to a single call (§6.3);
`dbOp` runs against the current state `s`, and either every effect commits
(the returned state is the one `dbOp` produced) or, when `dbOp` returns an
error, every effect rolls back (the state stays `s`) and the error is
surfaced to the caller. -/
def Transaction (s : σ) (dbOp : σ → Except E σ) : Except E Unit × σ :=
  match dbOp s with
  | .ok s₁ => (.ok (), s₁)
  | .error e => (.error e, s)

/-- Oracles for `StartReconciliation`: the reconciliation repository's
`CreateReconciliation`, the inventory's `UpdateStatus`, and
`reconciliation.IsDuplicateClusterReconciliationError` (which only selects
the log level in the source). -/
structure StartOps (σ E RE : Type) where
  createReconciliation : ClusterState → List String → σ → Except E (RE × σ)
  updateStatus : ClusterState → Status → σ → Except E (ClusterState × σ)
  isDuplicate : E → Bool

/-- The `dbOp` closure of `ClusterStatusTransition.StartReconciliation`:
create the reconciliation entity, then set the cluster status to
`Reconciling`; the first error aborts and is returned. -/
def startReconciliationDbOp (ops : StartOps σ E RE) (clusterState : ClusterState)
    (preComponents : List String) (s : σ) : Except E σ :=
  match ops.createReconciliation clusterState preComponents s with
  | .error e =>
      if ops.isDuplicate e then .error e else .error e
  | .ok (_reconEntity, s₁) =>
      match ops.updateStatus clusterState ClusterStatusReconciling s₁ with
      | .error e => .error e
      | .ok (_newClusterState, s₂) => .ok s₂

/-- Embedding of `ClusterStatusTransition.StartReconciliation`: the `dbOp` closure run via
`db.Transaction`. -/
def StartReconciliation (ops : StartOps σ E RE) (clusterState : ClusterState)
    (preComponents : List String) (s : σ) : Except E Unit × σ :=
  Transaction s (startReconciliationDbOp ops clusterState preComponents)

/-- The error of `ClusterStatusTransition.FinishReconciliation`: either the
`AlreadyFinished` error built by `fmt.Errorf("reconciliation ... is already
finished")`, or an error surfaced from a collaborator call. -/
inductive FinishError (E : Type) where
  | alreadyFinished (re : ReconEntity)
  | err (e : E)

/-- Oracles for `FinishReconciliation`: the repository's `GetReconciliation`
and `FinishReconciliation`, and the inventory's `Get` and `UpdateStatus`. -/
structure FinishOps (σ E : Type) where
  getReconciliation : String → σ → Except E ReconEntity
  invGet : String → Int → σ → Except E ClusterState
  updateStatus : ClusterState → Status → σ → Except E (ClusterState × σ)
  finishReconciliation : String → Status → σ → Except E σ

/-- The `dbOp` closure of `ClusterStatusTransition.FinishReconciliation`:
load the reconciliation entity, refuse if it is already finished, load the
cluster state, update the cluster status to `status`, then mark the
reconciliation finished with the updated status record. -/
def finishReconciliationDbOp (ops : FinishOps σ E) (schedulingID : String)
    (status : Status) (s : σ) : Except (FinishError E) σ :=
  match ops.getReconciliation schedulingID s with
  | .error e => .error (.err e)
  | .ok reconEntity =>
      if reconEntity.finished then
        .error (.alreadyFinished reconEntity)
      else
        match ops.invGet reconEntity.cluster reconEntity.clusterConfig s with
        | .error e => .error (.err e)
        | .ok clusterState =>
            match ops.updateStatus clusterState status s with
            | .error e => .error (.err e)
            | .ok (clusterState₁, s₁) =>
                match ops.finishReconciliation schedulingID clusterState₁.status s₁ with
                | .error e => .error (.err e)
                | .ok s₂ => .ok s₂

/-- Embedding of `ClusterStatusTransition.FinishReconciliation`: the `dbOp` closure run via
`db.Transaction`. -/
def FinishReconciliation (ops : FinishOps σ E) (schedulingID : String)
    (status : Status) (s : σ) : Except (FinishError E) Unit × σ :=
  Transaction s (finishReconciliationDbOp ops schedulingID status)

/-- Concrete `StartOps` used in witnesses: both repository calls succeed and
count their effects in a `Nat` state. -/
def startOpsDemo : StartOps Nat String Unit where
  createReconciliation := fun _ _ s => .ok ((), s + 1)
  updateStatus := fun c st s => .ok (⟨c.cluster, st⟩, s + 10)
  isDuplicate := fun _ => false

/-- Concrete `FinishOps` used in witnesses: a non-finished reconciliation for
cluster `c1`; all collaborator calls succeed and count their effects in a
`Nat` state. -/
def finishOpsDemo : FinishOps Nat String where
  getReconciliation := fun _ _ => .ok ⟨"c1", 1, false⟩
  invGet := fun _ _ _ => .ok ⟨"c1", "reconciling"⟩
  updateStatus := fun c st s => .ok (⟨c.cluster, st⟩, s + 1)
  finishReconciliation := fun _ _ s => .ok (s + 10)

/-- Concrete `FinishOps` used in witnesses: the reconciliation for cluster
`c1` is already marked finished. -/
def finishOpsDemoFinished : FinishOps Nat String where
  getReconciliation := fun _ _ => .ok ⟨"c1", 1, true⟩
  invGet := fun _ _ _ => .ok ⟨"c1", "reconciling"⟩
  updateStatus := fun c st s => .ok (⟨c.cluster, st⟩, s + 1)
  finishReconciliation := fun _ _ s => .ok (s + 10)

/-! ## Definitions: REST handlers (`cmd/service/start/cmd.go`) -/

/-- Error kinds of the inventory/repository layer;
`repository.IsNotFoundError` discriminates the `NotFound` kind. -/
inductive InvError where
  | notFound (msg : String)
  | internal (msg : String)
deriving DecidableEq, Repr

/-- The message carried by an inventory error (`err.Error()`). -/
def InvError.msg : InvError → String
  | .notFound m => m
  | .internal m => m

/-- The cluster inventory as consumed by the handlers: `Get`, `GetLatest` and
`Delete`. -/
structure Inventory (CS : Type) where
  get : String → Int → Except InvError CS
  getLatest : String → Except InvError CS
  delete : String → Option InvError

/-- The route parameters extracted by `mux.Vars`. -/
abbrev Params := List (String × String)

/-- Embedding of `param.string(name)`: look the parameter up, failing when undefined. -/
def paramString (ps : Params) (name : String) : Except String String :=
  match ps.lookup name with
  | some v => .ok v
  | none => .error ("Parameter \x27" ++ name ++ "\x27 undefined")

/-- Decimal digit accumulator for `parseInt64`. -/
def parseDigits (acc : Nat) : List Char → Option Nat
  | [] => some acc
  | c :: cs =>
      if c.isDigit then parseDigits (acc * 10 + (c.toNat - 48)) cs else none

/-- Modelled from the spec: `strconv.ParseInt(s, 10, 64)` of the Go standard
library — an optional sign followed by decimal digits (64-bit range checking
is out of scope of the claims). -/
def parseInt64 (s : String) : Option Int :=
  match s.data with
  | [] => none
  | '-' :: cs => (if cs.isEmpty then none else parseDigits 0 cs).map (fun n => -(n : Int))
  | '+' :: cs => (if cs.isEmpty then none else parseDigits 0 cs).map (fun n => (n : Int))
  | cs => (parseDigits 0 cs).map (fun n => (n : Int))

/-- Embedding of `param.int64(name)`: the string parameter parsed as a decimal integer
(`strconv.ParseInt(s, 10, 64)`). -/
def paramInt64 (ps : Params) (name : String) : Except String Int :=
  match paramString ps name with
  | .error e => .error e
  | .ok str =>
      match parseInt64 str with
      | some i => .ok i
      | none => .error ("invalid integer \x27" ++ str ++ "\x27")

/-- The observable HTTP response: status code and text body. -/
structure Response where
  status : Nat
  body : String
deriving DecidableEq, Repr

/-- A handler that returns without writing anything: Go's `net/http` then
responds with the default status `200 OK` and an empty body. -/
def defaultResponse : Response := ⟨200, ""⟩

/-- Embedding of `http.StatusText` for the codes the handlers use. -/
def statusText : Nat → String
  | 200 => "OK"
  | 204 => "No Content"
  | 400 => "Bad Request"
  | 404 => "Not Found"
  | 500 => "Internal Server Error"
  | _ => ""

/-- Embedding of `sendError(w, httpCode, err)`: `http.Error` with body
`{httpStatusText}\n\n{message}`. -/
def sendError (httpCode : Nat) (msg : String) : Response :=
  ⟨httpCode, statusText httpCode ++ "\n\n" ++ msg⟩

/-- Embedding of `sendResponse(w, payload)`: the JSON payload with status `200`
(JSON encoding is modelled as already-rendered text). -/
def sendResponse (payload : String) : Response :=
  ⟨200, payload⟩

/-- Embedding of `errors.Wrap(err, msg)`: message `msg` prepended to the cause. -/
def wrapMsg (msg : String) (cause : String) : String :=
  msg ++ ": " ++ cause

/-- The `get` handler
(`GET /v{contractVersion}/clusters/{cluster}/configs/{configVersion}/status`):
read the two parameters (400 on absence/parse failure), call
`Inventory.Get`, answer 500 on ANY inventory error — the `NotFound` kind is
not distinguished here — and the JSON payload with 200 on success.
`payloadOf` models `responsePayload` plus JSON encoding. -/
def get (inv : Inventory CS) (payloadOf : CS → String) (ps : Params) : Response :=
  match paramString ps "cluster" with
  | .error e => sendError 400 e
  | .ok cluster =>
      match paramInt64 ps "configVersion" with
      | .error e => sendError 400 e
      | .ok configVersion =>
          match inv.get cluster configVersion with
          | .error e => sendError 500 (wrapMsg "Cloud not retrieve cluster state" e.msg)
          | .ok clusterState => sendResponse (payloadOf clusterState)

/-- The `delete` handler (`DELETE /v{contractVersion}/clusters/{cluster}`):
read the parameter (400 on absence), answer 404 when `GetLatest` fails with
the `NotFound` kind, otherwise call `Inventory.Delete` (500 on error); on
success the handler returns without writing, so the default response
applies. -/
def delete (inv : Inventory CS) (ps : Params) : Response :=
  match paramString ps "cluster" with
  | .error e => sendError 400 e
  | .ok cluster =>
      match inv.getLatest cluster with
      | .error (.notFound m) =>
          sendError 404
            (wrapMsg ("Deletion impossible: cluster \x27" ++ cluster ++ "\x27 not found") m)
      | _ =>
          match inv.delete cluster with
          | some e =>
              sendError 500 (wrapMsg ("Failed to delete cluster \x27" ++ cluster ++ "\x27") e.msg)
          | none => defaultResponse

/-- Concrete inventory used in counterexamples and witnesses: every cluster
is absent. -/
def invDemoAbsent : Inventory Unit where
  get := fun _ _ => .error (.notFound "cluster entity not found")
  getLatest := fun _ => .error (.notFound "cluster entity not found")
  delete := fun _ => none

/-- Concrete inventory used in counterexamples and witnesses: the cluster
exists and deletion succeeds. -/
def invDemoPresent : Inventory Unit where
  get := fun _ _ => .ok ()
  getLatest := fun _ => .ok ()
  delete := fun _ => none

end Reconciler

namespace Reconciler

/-! ## Theorems: manifest rendering (C5, C9) -/

theorem strFoldl_append (l : List String) (a b : String) :
    l.foldl (fun r s => r ++ s) (a ++ b) = a ++ l.foldl (fun r s => r ++ s) b := by
  induction l generalizing b with
  | nil => simp
  | cons x xs ih => simp only [List.foldl, String.append_assoc, ih]

theorem strJoin_cons (s : String) (l : List String) :
    String.join (s :: l) = s ++ String.join l := by
  have h := strFoldl_append l s ""
  simp only [String.append_empty] at h
  simpa [String.join] using h

theorem renderLoop_eq_join (component : String) (ms : List Manifest) (buffer : String) :
    renderLoop component ms buffer
      = buffer ++ String.join (ms.map (manifestFragment component)) := by
  induction ms generalizing buffer with
  | nil => simp [renderLoop, String.join]
  | cons m rest ih =>
      rw [renderLoop, ih, List.map_cons, strJoin_cons, String.append_assoc]

/-- C9: for every manifest list returned by the chart provider (any
`installCRD` flag, so in particular `installCRD = false` with CRD manifests
present), `renderManifest` succeeds and its output is the concatenation, in
provider order, of one fragment per manifest, each fragment being the `---`
separator followed by the comment header and the manifest body. -/
theorem renderManifest_concats_all_manifests (E : Type) (wrapErr : String → E → E)
    (component : String) (manifests : List Manifest) :
    renderManifest wrapErr component (.ok manifests)
      = .ok (String.join (manifests.map (manifestFragment component))) := by
  rw [renderManifest, renderLoop_eq_join, String.empty_append]

/-- C5: when `installCRD = false` and the chart provider returns a manifest of
type CRD, `renderManifest` does not fail: the illegal state is only logged and
rendering completes normally with an `.ok` result.  (`renderManifest` inspects
`model.InstallCRD` only inside the logging branch, so the embedded rendering
does not take the flag; the hypothesis exhibits the CRD manifest.) -/
theorem renderManifest_crd_not_an_error (E : Type) (wrapErr : String → E → E)
    (component : String) (manifests : List Manifest) (m : Manifest)
    (hmem : m ∈ manifests) (hcrd : m.mType = ManifestType.crd) :
    (renderManifest wrapErr component (.ok manifests)).isOk = true := by
  rw [renderManifest]
  rfl

/-- Witness for C5 at a concrete CRD-bearing manifest list. -/
theorem renderManifest_crd_not_an_error_witness :
    (renderManifest (fun _ e => e) "istio"
      (Except.ok (ε := Nat) [⟨ManifestType.crd, "crd1", "kind: CustomResourceDefinition"⟩])).isOk
        = true :=
  renderManifest_crd_not_an_error Nat (fun _ e => e) "istio"
    [⟨ManifestType.crd, "crd1", "kind: CustomResourceDefinition"⟩]
    ⟨ManifestType.crd, "crd1", "kind: CustomResourceDefinition"⟩
    (List.mem_singleton.mpr rfl) rfl

/-! ## Theorems: progress tracking (C7) -/

theorem collectWatchable_skips (watchable : String → Except E W) (r : Resource)
    (l₁ l₂ : List Resource) (e : E) (hr : watchable r.kind = .error e) :
    collectWatchable watchable (l₁ ++ r :: l₂) = collectWatchable watchable (l₁ ++ l₂) := by
  induction l₁ with
  | nil => simp [collectWatchable, hr]
  | cons x xs ih =>
      simp only [List.cons_append, collectWatchable]
      cases hx : watchable x.kind <;> simp [hx, ih, List.append_eq]

/-- C7: a deployed resource whose kind cannot be converted to a watchable
resource is skipped by `trackProgress`: it is never added to the progress
tracker, and its presence in the deployed-resource list leaves the result of
`trackProgress` (in particular, whether it errors) unchanged. -/
theorem trackProgress_ignores_unwatchable (E W : Type) (clientsetRes newTrackerRes : Option E)
    (watchable : String → Except E W) (watch : List (W × String × String) → Option E)
    (r : Resource) (l₁ l₂ : List Resource) (e : E) (hr : watchable r.kind = .error e) :
    collectWatchable watchable (l₁ ++ r :: l₂) = collectWatchable watchable (l₁ ++ l₂)
      ∧ trackProgress clientsetRes newTrackerRes (.ok (l₁ ++ r :: l₂)) watchable watch
          = trackProgress clientsetRes newTrackerRes (.ok (l₁ ++ l₂)) watchable watch := by
  refine ⟨collectWatchable_skips watchable r l₁ l₂ e hr, ?_⟩
  cases clientsetRes with
  | some e' => rfl
  | none =>
      cases newTrackerRes with
      | some e' => rfl
      | none =>
          show watch (collectWatchable watchable (l₁ ++ r :: l₂))
            = watch (collectWatchable watchable (l₁ ++ l₂))
          rw [collectWatchable_skips watchable r l₁ l₂ e hr]

/-- Witness for C7: a concrete ConfigMap resource (non-watchable kind) inside
a list of watchable Deployments neither appears in the tracked list nor
changes the tracking outcome. -/
theorem trackProgress_ignores_unwatchable_witness :
    collectWatchable watchableDemo
        ([⟨"Deployment", "d1", "n1"⟩] ++ (⟨"ConfigMap", "c", "n"⟩ : Resource)
            :: [⟨"Deployment", "d2", "n2"⟩])
      = collectWatchable watchableDemo ([⟨"Deployment", "d1", "n1"⟩] ++ [⟨"Deployment", "d2", "n2"⟩])
    ∧ trackProgress (E := String) none none
        (.ok ([⟨"Deployment", "d1", "n1"⟩] ++ (⟨"ConfigMap", "c", "n"⟩ : Resource)
            :: [⟨"Deployment", "d2", "n2"⟩])) watchableDemo (fun _ => none)
      = trackProgress none none
        (.ok ([⟨"Deployment", "d1", "n1"⟩] ++ [⟨"Deployment", "d2", "n2"⟩]))
        watchableDemo (fun _ => none) :=
  trackProgress_ignores_unwatchable String String none none watchableDemo (fun _ => none)
    ⟨"ConfigMap", "c", "n"⟩ [⟨"Deployment", "d1", "n1"⟩] [⟨"Deployment", "d2", "n2"⟩]
    "unwatchable resource kind" rfl

/-! ## Theorems: one reconciliation attempt (C6) -/

/-- C6: when a pre-install hook is registered and returns an error (and the
Kubernetes client and clientset were obtained), `runner.reconcile` returns
that error immediately: neither the default install path, nor a registered
install action, nor the post-install hook is invoked in that attempt. -/
theorem reconcile_preinstall_short_circuits (E : Type) (m : RunnerSteps E) (e : E)
    (h₁ : m.newKubeClientRes = none) (h₂ : m.clientsetRes = none)
    (h₃ : m.preInstallAction = some (some e)) :
    reconcile m = ([StepEvent.preInstall], some e)
      ∧ StepEvent.defaultInstall ∉ (reconcile m).1
      ∧ StepEvent.installAct ∉ (reconcile m).1
      ∧ StepEvent.postInstall ∉ (reconcile m).1 := by
  have heq : reconcile m = ([StepEvent.preInstall], some e) := by
    rw [reconcile, h₁, h₂, h₃]
  refine ⟨heq, ?_, ?_, ?_⟩ <;> rw [heq] <;> simp

/-- Witness for C6 at concrete oracles: registered pre-install hook failing
with error `1`. -/
theorem reconcile_preinstall_short_circuits_witness :
    reconcile (⟨none, none, some (some 1), none, none, none⟩ : RunnerSteps Nat)
        = ([StepEvent.preInstall], some 1)
      ∧ StepEvent.defaultInstall
          ∉ (reconcile (⟨none, none, some (some 1), none, none, none⟩ : RunnerSteps Nat)).1
      ∧ StepEvent.installAct
          ∉ (reconcile (⟨none, none, some (some 1), none, none, none⟩ : RunnerSteps Nat)).1
      ∧ StepEvent.postInstall
          ∉ (reconcile (⟨none, none, some (some 1), none, none, none⟩ : RunnerSteps Nat)).1 :=
  reconcile_preinstall_short_circuits Nat ⟨none, none, some (some 1), none, none, none⟩ 1
    rfl rfl rfl

/-! ## Theorems: the retrying runner (C3, C10) -/

theorem execCount_le (o : RunOracles E) (i : Nat) : ∀ n, execCount o i n ≤ n := by
  intro n
  induction n generalizing i with
  | zero => simp [execCount]
  | succ n ih =>
      cases h : attemptResult o i with
      | none => simp [execCount, h]
      | some e =>
          simp only [execCount, h]
          have := ih (i + 1)
          omega

theorem retryRun_fst (o : RunOracles E) (i : Nat) (n : Nat) :
    (retryRun o i n).1 = (List.range' i (execCount o i n)).flatMap (attemptTrace o) := by
  induction n generalizing i with
  | zero => simp [retryRun, execCount]
  | succ n ih =>
      cases h : attemptResult o i with
      | none => simp [retryRun, execCount, h]
      | some e =>
          simp only [retryRun, execCount, h]
          rw [Nat.add_comm 1 (execCount o (i + 1) n), List.range'_succ]
          simp [ih]

theorem retryRun_none_iff (o : RunOracles E) (i : Nat) (n : Nat) :
    (retryRun o i n).2 = none
      ↔ ∃ j, j < execCount o i n ∧ attemptResult o (i + j) = none := by
  induction n generalizing i with
  | zero => simp [retryRun, execCount]
  | succ n ih =>
      cases h : attemptResult o i with
      | none =>
          simp only [retryRun, execCount, h]
          constructor
          · intro _
            exact ⟨0, Nat.zero_lt_one, by simpa using h⟩
          · intro _
            trivial
      | some e =>
          simp only [retryRun, execCount, h]
          constructor
          · intro hrest
            have h₂ : (retryRun o (i + 1) n).2 = none := by
              cases hr : (retryRun o (i + 1) n).2 with
              | none => rfl
              | some es => simp [hr] at hrest
            obtain ⟨j, hj, ha⟩ := (ih (i + 1)).mp h₂
            exact ⟨j + 1, by omega, by rw [show i + (j + 1) = i + 1 + j by omega]; exact ha⟩
          · rintro ⟨j, hj, ha⟩
            cases j with
            | zero =>
                rw [Nat.add_zero] at ha
                rw [h] at ha
                exact Option.noConfusion ha
            | succ j =>
                have h₂ : (retryRun o (i + 1) n).2 = none :=
                  (ih (i + 1)).mpr
                    ⟨j, by omega, by rw [show i + 1 + j = i + (j + 1) by omega]; exact ha⟩
                rw [h₂]

theorem failed_mem_attemptTrace (o : RunOracles E) (i j : Nat) :
    UpdaterEvent.failed i ∈ attemptTrace o j
      ↔ (i = j ∧ o.runningRes j = none ∧ o.reconcileRes j ≠ none) := by
  rw [attemptTrace]
  cases o.runningRes j with
  | some e => simp
  | none =>
      cases o.reconcileRes j with
      | none => simp
      | some e => simp [eq_comm]

theorem runnerRun_failed_mem (o : RunOracles E) (n : Nat) (i : Nat) :
    UpdaterEvent.failed i ∈ (runnerRun o n).1
      ↔ (i < execCount o 0 n ∧ o.runningRes i = none ∧ o.reconcileRes i ≠ none) := by
  have hmem : UpdaterEvent.failed i ∈ (retryRun o 0 n).1
      ↔ (i < execCount o 0 n ∧ o.runningRes i = none ∧ o.reconcileRes i ≠ none) := by
    rw [retryRun_fst]
    simp only [List.mem_flatMap, List.mem_range', failed_mem_attemptTrace]
    constructor
    · rintro ⟨a, ⟨k, hk, hak⟩, rfl, hrun, hrec⟩
      exact ⟨by omega, hrun, hrec⟩
    · rintro ⟨hi, hrun, hrec⟩
      exact ⟨i, ⟨i, hi, by omega⟩, rfl, hrun, hrec⟩
  rw [runnerRun]
  cases hl : (retryRun o 0 n).2 with
  | none => simpa using hmem
  | some es => simpa using hmem

/-- C3 (amended): in `runner.Run`, the retry loop executes the `retryable`
closure at most `maxRetries` times; an attempt invokes `Failed()` exactly when
its `Running()` heartbeat call succeeded and the reconcile body returned an
error (an attempt failing in `Running()` itself returns that error without a
`Failed()` flip); the status-updater trace is the per-attempt traces in order
followed by `Success()` exactly when some executed attempt succeeded and by
`Error()` when every attempt failed, in which case `Run` returns a non-nil
error. -/
theorem runnerRun_retry_policy (E : Type) (o : RunOracles E) (n : Nat) (hn : 1 ≤ n) :
    execCount o 0 n ≤ n
      ∧ (∀ i, UpdaterEvent.failed i ∈ (runnerRun o n).1
          ↔ (i < execCount o 0 n ∧ o.runningRes i = none ∧ o.reconcileRes i ≠ none))
      ∧ ((retryRun o 0 n).2 = none
          ↔ ∃ j, j < execCount o 0 n ∧ attemptResult o j = none)
      ∧ ((retryRun o 0 n).2 = none
          → (runnerRun o n).1
              = (List.range' 0 (execCount o 0 n)).flatMap (attemptTrace o)
                  ++ [UpdaterEvent.success])
      ∧ (∀ es, (retryRun o 0 n).2 = some es
          → (runnerRun o n).1
              = (List.range' 0 (execCount o 0 n)).flatMap (attemptTrace o)
                  ++ [UpdaterEvent.error]
            ∧ (runnerRun o n).2 ≠ none) := by
  refine ⟨execCount_le o 0 n, runnerRun_failed_mem o n, ?_, ?_, ?_⟩
  · have h := retryRun_none_iff o 0 n
    simpa using h
  · intro hl
    rw [runnerRun]
    rw [hl]
    rw [retryRun_fst]
  · intro es hl
    constructor
    · rw [runnerRun, hl, retryRun_fst]
    · rw [runnerRun, hl]
      cases o.errorRes <;> simp

/-- Witness for C3 (amended) at the concrete oracles whose every attempt
fails in the reconcile body. -/
theorem runnerRun_retry_policy_witness :
    execCount runDemoErrorCallbackFails 0 2 ≤ 2
      ∧ (∀ i, UpdaterEvent.failed i ∈ (runnerRun runDemoErrorCallbackFails 2).1
          ↔ (i < execCount runDemoErrorCallbackFails 0 2
              ∧ runDemoErrorCallbackFails.runningRes i = none
              ∧ runDemoErrorCallbackFails.reconcileRes i ≠ none))
      ∧ ((retryRun runDemoErrorCallbackFails 0 2).2 = none
          ↔ ∃ j, j < execCount runDemoErrorCallbackFails 0 2
              ∧ attemptResult runDemoErrorCallbackFails j = none)
      ∧ ((retryRun runDemoErrorCallbackFails 0 2).2 = none
          → (runnerRun runDemoErrorCallbackFails 2).1
              = (List.range' 0 (execCount runDemoErrorCallbackFails 0 2)).flatMap
                  (attemptTrace runDemoErrorCallbackFails) ++ [UpdaterEvent.success])
      ∧ (∀ es, (retryRun runDemoErrorCallbackFails 0 2).2 = some es
          → (runnerRun runDemoErrorCallbackFails 2).1
              = (List.range' 0 (execCount runDemoErrorCallbackFails 0 2)).flatMap
                  (attemptTrace runDemoErrorCallbackFails) ++ [UpdaterEvent.error]
            ∧ (runnerRun runDemoErrorCallbackFails 2).2 ≠ none) :=
  runnerRun_retry_policy Nat runDemoErrorCallbackFails 2 (by omega)

/-- C3 (counterexample to the claim as stated): with oracles whose `Running()`
heartbeat call fails, the single attempt of `runner.Run` returns an error and
the run fails, yet `Failed()` is never invoked — an erroring attempt does not
always flip the Status Updater to `failed`. -/
theorem runnerRun_failed_flip_counterexample :
    execCount runDemoFailingHeartbeat 0 1 = 1
      ∧ attemptResult runDemoFailingHeartbeat 0 ≠ none
      ∧ (runnerRun runDemoFailingHeartbeat 1).2 ≠ none
      ∧ UpdaterEvent.failed 0 ∉ (runnerRun runDemoFailingHeartbeat 1).1 := by
  decide

/-- C10: `runner.Run` can return a non-nil error even though the component
reconciliation itself succeeded: when the retry loop succeeds but the terminal
`Success()` callback fails, `Run` returns the callback error; symmetrically,
when the loop is exhausted and `Error()` fails, `Run` returns the callback
error in place of the aggregated reconciliation error. -/
theorem runnerRun_callback_error_overrides (E : Type) (o : RunOracles E) (n : Nat) :
    (∀ e, (retryRun o 0 n).2 = none → o.successRes = some e
        → (runnerRun o n).2 = some (RunError.callback e))
      ∧ (∀ es e, (retryRun o 0 n).2 = some es → o.errorRes = some e
          → (runnerRun o n).2 = some (RunError.callback e)) := by
  constructor
  · intro e hl hs
    rw [runnerRun, hl, hs]
  · intro es e hl he
    rw [runnerRun, hl, he]

/-- Witness for C10: concrete oracles where the loop succeeds but `Success()`
fails with `5`, and where the loop is exhausted and `Error()` fails with `9`. -/
theorem runnerRun_callback_error_overrides_witness :
    (runnerRun runDemoSuccessCallbackFails 2).2 = some (RunError.callback 5)
      ∧ (runnerRun runDemoErrorCallbackFails 2).2 = some (RunError.callback 9) :=
  ⟨(runnerRun_callback_error_overrides Nat runDemoSuccessCallbackFails 2).1 5 rfl rfl,
    (runnerRun_callback_error_overrides Nat runDemoErrorCallbackFails 2).2 [3, 3] 9 rfl rfl⟩

/-! ## Theorems: cluster status transition (C1, C2) -/

/-- C1: `StartReconciliation` creates the reconciliation entity and flips the
cluster status to `Reconciling` inside one transaction: when
`CreateReconciliation` fails, or when it succeeds and `Inventory.UpdateStatus`
fails, that error is returned and the persisted state is unchanged (both
effects roll back); when both succeed, the state carrying both effects is
committed. -/
theorem startReconciliation_transactional (σ E RE : Type) (ops : StartOps σ E RE)
    (clusterState : ClusterState) (preComponents : List String) (s : σ) :
    (∀ e, ops.createReconciliation clusterState preComponents s = .error e
        → StartReconciliation ops clusterState preComponents s = (.error e, s))
      ∧ (∀ re s₁ e, ops.createReconciliation clusterState preComponents s = .ok (re, s₁)
          → ops.updateStatus clusterState ClusterStatusReconciling s₁ = .error e
          → StartReconciliation ops clusterState preComponents s = (.error e, s))
      ∧ (∀ re s₁ cs₁ s₂, ops.createReconciliation clusterState preComponents s = .ok (re, s₁)
          → ops.updateStatus clusterState ClusterStatusReconciling s₁ = .ok (cs₁, s₂)
          → StartReconciliation ops clusterState preComponents s = (.ok (), s₂)) := by
  refine ⟨?_, ?_, ?_⟩
  · intro e h
    have hop : startReconciliationDbOp ops clusterState preComponents s = .error e := by
      simp [startReconciliationDbOp, h]
    simp [StartReconciliation, Transaction, hop]
  · intro re s₁ e h₁ h₂
    have hop : startReconciliationDbOp ops clusterState preComponents s = .error e := by
      simp [startReconciliationDbOp, h₁, h₂]
    simp [StartReconciliation, Transaction, hop]
  · intro re s₁ cs₁ s₂ h₁ h₂
    have hop : startReconciliationDbOp ops clusterState preComponents s = .ok s₂ := by
      simp [startReconciliationDbOp, h₁, h₂]
    simp [StartReconciliation, Transaction, hop]

/-- Witness for C1 at concrete oracles where both steps succeed: both effects
(counted in the `Nat` state) are committed. -/
theorem startReconciliation_transactional_witness :
    StartReconciliation startOpsDemo ⟨"c1", "ready"⟩ ["istio"] 0 = (.ok (), 11) :=
  (startReconciliation_transactional Nat String Unit startOpsDemo ⟨"c1", "ready"⟩
    ["istio"] 0).2.2 () 1 ⟨"c1", ClusterStatusReconciling⟩ 11 rfl rfl

/-- C2: when the loaded reconciliation entity is already finished,
`FinishReconciliation` returns the `AlreadyFinished` error and the persisted
state is unchanged; since `ops` is universally quantified, the result does
not depend on the `UpdateStatus` and `FinishReconciliation` oracles — neither
is performed.  When the entity is not finished, the cluster status is updated
to the given `status` and the reconciliation is then marked finished with the
updated status record, both inside one transaction (every intermediate error
is returned with the state rolled back, and the success path commits both
effects). -/
theorem finishReconciliation_alreadyFinished_guard (σ E : Type) (ops : FinishOps σ E)
    (schedulingID : String) (status : Status) (s : σ) (re : ReconEntity)
    (hget : ops.getReconciliation schedulingID s = .ok re) :
    (re.finished = true
        → FinishReconciliation ops schedulingID status s = (.error (.alreadyFinished re), s))
      ∧ (∀ e, re.finished = false
          → ops.invGet re.cluster re.clusterConfig s = .error e
          → FinishReconciliation ops schedulingID status s = (.error (.err e), s))
      ∧ (∀ clusterState e, re.finished = false
          → ops.invGet re.cluster re.clusterConfig s = .ok clusterState
          → ops.updateStatus clusterState status s = .error e
          → FinishReconciliation ops schedulingID status s = (.error (.err e), s))
      ∧ (∀ clusterState cs₁ s₁ e, re.finished = false
          → ops.invGet re.cluster re.clusterConfig s = .ok clusterState
          → ops.updateStatus clusterState status s = .ok (cs₁, s₁)
          → ops.finishReconciliation schedulingID cs₁.status s₁ = .error e
          → FinishReconciliation ops schedulingID status s = (.error (.err e), s))
      ∧ (∀ clusterState cs₁ s₁ s₂, re.finished = false
          → ops.invGet re.cluster re.clusterConfig s = .ok clusterState
          → ops.updateStatus clusterState status s = .ok (cs₁, s₁)
          → ops.finishReconciliation schedulingID cs₁.status s₁ = .ok s₂
          → FinishReconciliation ops schedulingID status s = (.ok (), s₂)) := by
  refine ⟨?_, ?_, ?_, ?_, ?_⟩
  · intro hfin
    have hop : finishReconciliationDbOp ops schedulingID status s
        = .error (.alreadyFinished re) := by
      simp [finishReconciliationDbOp, hget, hfin]
    simp [FinishReconciliation, Transaction, hop]
  · intro e hfin hinv
    have hop : finishReconciliationDbOp ops schedulingID status s = .error (.err e) := by
      simp [finishReconciliationDbOp, hget, hfin, hinv]
    simp [FinishReconciliation, Transaction, hop]
  · intro clusterState e hfin hinv hupd
    have hop : finishReconciliationDbOp ops schedulingID status s = .error (.err e) := by
      simp [finishReconciliationDbOp, hget, hfin, hinv, hupd]
    simp [FinishReconciliation, Transaction, hop]
  · intro clusterState cs₁ s₁ e hfin hinv hupd hfr
    have hop : finishReconciliationDbOp ops schedulingID status s = .error (.err e) := by
      simp [finishReconciliationDbOp, hget, hfin, hinv, hupd, hfr]
    simp [FinishReconciliation, Transaction, hop]
  · intro clusterState cs₁ s₁ s₂ hfin hinv hupd hfr
    have hop : finishReconciliationDbOp ops schedulingID status s = .ok s₂ := by
      simp [finishReconciliationDbOp, hget, hfin, hinv, hupd, hfr]
    simp [FinishReconciliation, Transaction, hop]

/-- Witness for C2 at concrete oracles: an already-finished entity yields the
`AlreadyFinished` error with the state unchanged, and a non-finished entity
commits both the status update and the finish mark. -/
theorem finishReconciliation_alreadyFinished_guard_witness :
    FinishReconciliation finishOpsDemoFinished "sid" "ready" 0
        = (.error (.alreadyFinished ⟨"c1", 1, true⟩), 0)
      ∧ FinishReconciliation finishOpsDemo "sid" "ready" 0 = (.ok (), 11) :=
  ⟨(finishReconciliation_alreadyFinished_guard Nat String finishOpsDemoFinished
      "sid" "ready" 0 ⟨"c1", 1, true⟩ rfl).1 rfl,
    (finishReconciliation_alreadyFinished_guard Nat String finishOpsDemo
      "sid" "ready" 0 ⟨"c1", 1, false⟩ rfl).2.2.2.2 ⟨"c1", "reconciling"⟩
      ⟨"c1", "ready"⟩ 1 11 rfl rfl rfl rfl⟩

/-! ## Theorems: REST handlers (C4, C8) -/

/-- C4 (counterexample to the claim as stated): a GET of a cluster status
whose `Inventory.Get` fails with the `NotFound` kind is answered with HTTP
500, not 404 — the `get` handler maps every inventory error to 500. -/
theorem get_notFound_counterexample :
    (get invDemoAbsent (fun _ => "") [("cluster", "c1"), ("configVersion", "1")]).status = 500
      ∧ ((get invDemoAbsent (fun _ => "")
          [("cluster", "c1"), ("configVersion", "1")]).status = 404 → False) := by
  decide

/-- C4 (amended): the DELETE handler answers 404 when `GetLatest` fails with
the `NotFound` kind, while the GET handler answers 500 on every
`Inventory.Get` error — including `NotFound`, which is not distinguished
there. -/
theorem notFound_at_the_boundary (CS : Type) (inv : Inventory CS) (payloadOf : CS → String)
    (ps : Params) (cluster : String) (configVersion : Int) :
    (∀ m, paramString ps "cluster" = .ok cluster
        → inv.getLatest cluster = .error (.notFound m)
        → (delete inv ps).status = 404)
      ∧ (∀ e, paramString ps "cluster" = .ok cluster
          → paramInt64 ps "configVersion" = .ok configVersion
          → inv.get cluster configVersion = .error e
          → (get inv payloadOf ps).status = 500) := by
  constructor
  · intro m hc hlatest
    simp [delete, hc, hlatest, sendError]
  · intro e hc hv hget
    simp [get, hc, hv, hget, sendError]

/-- Witness for C4 (amended) at a concrete absent cluster. -/
theorem notFound_at_the_boundary_witness :
    (delete invDemoAbsent [("cluster", "c1"), ("configVersion", "1")]).status = 404
      ∧ (get invDemoAbsent (fun _ => "")
          [("cluster", "c1"), ("configVersion", "1")]).status = 500 :=
  ⟨(notFound_at_the_boundary Unit invDemoAbsent (fun _ => "")
      [("cluster", "c1"), ("configVersion", "1")] "c1" 1).1
      "cluster entity not found" rfl rfl,
    (notFound_at_the_boundary Unit invDemoAbsent (fun _ => "")
      [("cluster", "c1"), ("configVersion", "1")] "c1" 1).2
      (.notFound "cluster entity not found") rfl rfl rfl⟩

/-- C8 (counterexample to the claim as stated): a successful
`DELETE /clusters/{cluster}` is answered with HTTP 200 (the handler returns
without writing any status, so the `net/http` default applies), not 204. -/
theorem delete_success_counterexample :
    (delete invDemoPresent [("cluster", "c1")]).status = 200
      ∧ ((delete invDemoPresent [("cluster", "c1")]).status = 204 → False) := by
  decide

/-- C8 (amended): on a successful DELETE (the cluster's `GetLatest` does not
fail with `NotFound` and `Inventory.Delete` succeeds) the handler writes
neither a status code nor a body, so the response is the `net/http` default:
status 200 with an empty body. -/
theorem delete_success_responds_200 (CS : Type) (inv : Inventory CS) (ps : Params)
    (cluster : String) (latest : CS)
    (hc : paramString ps "cluster" = .ok cluster)
    (hlatest : inv.getLatest cluster = .ok latest)
    (hdel : inv.delete cluster = none) :
    delete inv ps = defaultResponse ∧ (delete inv ps).status = 200 := by
  have heq : delete inv ps = defaultResponse := by
    simp [delete, hc, hlatest, hdel]
  exact ⟨heq, by rw [heq]; rfl⟩

/-- Witness for C8 (amended) at a concrete present cluster. -/
theorem delete_success_responds_200_witness :
    delete invDemoPresent [("cluster", "c1")] = defaultResponse
      ∧ (delete invDemoPresent [("cluster", "c1")]).status = 200 :=
  delete_success_responds_200 Unit invDemoPresent [("cluster", "c1")] "c1" () rfl rfl rfl

end Reconciler
